import Mathlib

/-!
# Log retrieval and formatting client (pkg/logs/client.go)

A shallow embedding of the logs client: the endpoint construction, the
historical and follow loops, the entry formatter, the colour policy and the
status-to-error mapping, followed by theorems about them.

Go strings and byte slices are modelled by `String`, one `Char` standing for
one byte.  The output sink `c.out`, the requests sent to the collaborators and
the number of `Unsubscribe` calls are threaded through the functions as a
`State`.  Writes to the sink do not fail.  An operation either returns its
error value or, in follow mode, stays blocked on the events channel; this is
its `Outcome`.
-/

namespace Logs

/-! ## Data model -/

/-- Modelled from the spec: the nested field set of `Entry`, whose declaration
is in a file of package logs that is not part of the sources at hand.  The
four fields read by client.go, all strings. -/
structure Fields where
  Message : String
  Priority : String
  SyslogIdentifier : String
  PID : String
deriving DecidableEq, Repr

/-- Modelled from the spec: the `Entry` type (declaration missing from the
sources at hand): the nested fields and the realtime timestamp in
microseconds since the epoch (an int64 in the code, passed to `time.Unix`). -/
structure Entry where
  Fields : Fields
  RealtimeTimestamp : Int
deriving DecidableEq, Repr

/-- Options of client.go: the options set via flags on the command. -/
structure Options where
  Filters : List String
  Follow : Bool
  Format : String
  Skip : Int
deriving DecidableEq, Repr

/-- The body of an HTTP response: the bytes that can be read from it and the
read error, if any, that ends the reading. -/
structure Body where
  data : String
  readErr : Option String
deriving DecidableEq, Repr

/-- The part of `http.Response` used by client.go. -/
structure Response where
  StatusCode : Int
  Body : Body
deriving DecidableEq, Repr

/-- Go `error` values returned by the client. -/
inductive Error where
  /-- An error built with `fmt.Errorf`, with its message. -/
  | errorf (msg : String)
  /-- The value `&httpclient.HTTPError{Response: resp}`. -/
  | httpError (resp : Response)
  /-- An error returned by `json.Unmarshal`. -/
  | decode (msg : String)
  /-- An error returned by the transport (`Get`, `SubscribeChanRaw`, reading a body). -/
  | transport (msg : String)
deriving DecidableEq, Repr

/-- A request sent to a collaborator. -/
inductive Call where
  /-- The call `c.http.Get(endpoint, httpclient.Header("Accept", accept))`. -/
  | get (endpoint : String) (accept : String)
  /-- The call `sse.NewClient(url).SubscribeChanRaw(events)`. -/
  | subscribe (url : String)
deriving DecidableEq, Repr

/-- The observable effects of the client: the bytes written to `c.out`, the
requests made so far, and how many times `Unsubscribe` has been invoked. -/
structure State where
  out : String
  calls : List Call
  unsubscribed : Nat
deriving DecidableEq, Repr

deriving instance DecidableEq for Except

/-- What a subscription delivers on the channel `events`: the frames
(`msg.Data`) in order, and whether the channel is closed after the last of
them.  client.go creates the channel and never closes it itself; whether the
event-stream library closes it when the stream ends is the library's matter,
so both cases are kept. -/
structure Stream where
  frames : List String
  closed : Bool
deriving DecidableEq, Repr

/-- How a call of an operation ends: it returns its error value (`none` is
nil), or it does not return, blocked in `for msg := range events` on a channel
that delivers nothing more and is not closed. -/
inductive Outcome where
  /-- The call returns `err`. -/
  | returned (err : Option Error)
  /-- The call stays blocked on the events channel. -/
  | blocked
deriving DecidableEq, Repr

/-- The HTTP collaborator `c.http` together with the event-stream library:
what `Get` answers for an endpoint and an Accept header, the base URL, and
what a subscription to a URL yields, an error or the stream delivered on the
channel.  The Authorization and User-Agent headers copied onto the
event-stream client are left out. -/
structure HTTPClient where
  get : String → String → Except String Response
  baseURL : String
  subscribe : String → Except String Stream

/-- The package `encoding/json` applied to `Entry` (declaration missing from
the sources at hand): `unmarshal` is `json.Unmarshal(rawEntry, &entry)`, and
`encode indent entry` is the text that `enc.Encode(entry.JournalctlJSON())`
writes, with its final newline, with (`true`) or without the indentation set
by `enc.SetIndent`.  Encoding a decoded entry does not fail. -/
structure JSON where
  unmarshal : String → Except String Entry
  encode : Bool → Entry → String

/-- The `Client` of client.go; its field `out` is the `out` of `State`. -/
structure Client where
  http : HTTPClient
  colored : Bool

/-- What `NewClient` inspects of the writer it is given: whether it is an
`*os.File` and whether its descriptor is a terminal. -/
structure Writer where
  isFile : Bool
  isTerminal : Bool
deriving DecidableEq, Repr

/-- `NewClient`: colours are enabled when `out` is a file, the platform is not
Windows and the file is a terminal. -/
def NewClient (goos : String) (baseClient : HTTPClient) (out : Writer) : Client :=
  { http := baseClient
    colored := if out.isFile then (if goos ≠ "windows" ∧ out.isTerminal = true then true else false) else false }

/-- `fmt.Fprint(c.out, s)` for string operands: append to the sink. -/
def State.write (st : State) (s : String) : State :=
  { st with out := st.out ++ s }

/-- Record a request to a collaborator. -/
def State.record (st : State) (call : Call) : State :=
  { st with calls := st.calls ++ [call] }

/-- One invocation of `client.Unsubscribe(events)`. -/
def State.unsubscribe (st : State) : State :=
  { st with unsubscribed := st.unsubscribed + 1 }

/-! ## Time formatting (package time) -/

/-- The function `appendInt` of package time: the decimal digits of `x`,
padded with zeros to `width` digits, after a minus sign when `x` is negative. -/
def appendInt (x : Int) (width : Nat) : String :=
  let ds := Nat.toDigits 10 x.natAbs
  (if x < 0 then "-" else "") ++ String.mk (List.replicate (width - ds.length) '0' ++ ds)

/-- The civil date (year, month, day) of the day `z` days after 1970-01-01 in
the proleptic Gregorian calendar, as computed by `Time.Date`. -/
def civilFromDays (z : Int) : Int × Int × Int :=
  let z := z + 719468
  let era := z / 146097
  let doe := z % 146097
  let yoe := (doe - doe / 1460 + doe / 36524 - doe / 146096) / 365
  let doy := doe - (365 * yoe + yoe / 4 - yoe / 100)
  let mp := (5 * doy + 2) / 153
  let d := doy - (153 * mp + 2) / 5 + 1
  let m := if mp < 10 then mp + 3 else mp - 9
  let y := yoe + era * 400
  (if m ≤ 2 then y + 1 else y, m, d)

/-- The text of `time.Unix(sec, 0).UTC().Format("2006-01-02 15:04:05 MST")`. -/
def formatUTC (sec : Int) : String :=
  let days := sec / 86400
  let rem := sec % 86400
  let ymd := civilFromDays days
  appendInt ymd.1 4 ++ "-" ++ appendInt ymd.2.1 2 ++ "-" ++ appendInt ymd.2.2 2 ++ " "
    ++ appendInt (rem / 3600) 2 ++ ":" ++ appendInt (rem % 3600 / 60) 2 ++ ":"
    ++ appendInt (rem % 60) 2 ++ " UTC"

/-! ## Colour policy -/

/-- The colour parameter chosen by the switch of `setColor`. -/
def colorCode (priority : String) : String :=
  if priority = "0" ∨ priority = "1" ∨ priority = "2" ∨ priority = "3" then "31"
  else if priority = "4" then "33"
  else if priority = "5" then "34;1"
  else "0"

/-- `Client.setColor`. -/
def setColor (c : Client) (priority : String) (st : State) : State :=
  if c.colored then st.write ("\x1b[0;" ++ colorCode priority ++ "m") else st

/-- `Client.resetColor`. -/
def resetColor (c : Client) (st : State) : State :=
  if c.colored then st.write "\x1b[0m" else st

/-! ## Formatter -/

/-- The local variable `pid` of `printEntry`: empty for an empty PID,
`fmt.Sprintf(" [%s]", PID)` otherwise. -/
def pidSegment (entry : Entry) : String :=
  if entry.Fields.PID ≠ "" then " [" ++ entry.Fields.PID ++ "]" else ""

/-- `Client.printEntry`: the returned error and the state afterwards.  The
operands of the `fmt.Fprint` of the default format are all strings, and
`Fprint` puts a space between two operands only when neither is a string, so
they are written back to back. -/
def printEntry (js : JSON) (c : Client) (rawEntry : String) (opts : Options) (st : State) :
    Option Error × State :=
  match js.unmarshal rawEntry with
  | .error msg => (some (Error.decode msg), st)
  | .ok entry =>
    if opts.Format = "json-pretty" then (none, st.write (js.encode true entry))
    else if opts.Format = "json" then (none, st.write (js.encode false entry))
    else if opts.Format = "cat" then
      let st := setColor c entry.Fields.Priority st
      let st := st.write entry.Fields.Message
      let st := resetColor c st
      (none, st.write "\n")
    else
      let st := setColor c entry.Fields.Priority st
      let date := formatUTC (entry.RealtimeTimestamp.tdiv 1000000)
      let pid := pidSegment entry
      let st := st.write (date ++ entry.Fields.SyslogIdentifier ++ pid ++ ": " ++ entry.Fields.Message)
      let st := resetColor c st
      (none, st.write "\n")

/-- `Client.dumpEntry`. -/
def dumpEntry (js : JSON) (rawEntry : String) (st : State) : Option Error × State :=
  match js.unmarshal rawEntry with
  | .error msg => (some (Error.decode msg), st)
  | .ok entry => (none, st.write entry.Fields.Message)

/-! ## Error mapping -/

/-- `httpResponseToError`. -/
def httpResponseToError (resp : Response) : Error :=
  if resp.StatusCode = 204 then Error.errorf "no logs found"
  else if resp.StatusCode < 400 then Error.errorf ("unexpected status code " ++ toString resp.StatusCode)
  else Error.httpError resp

/-! ## Endpoints -/

/-- The function `strings.Join`: the elements, with `sep` between them. -/
def stringsJoin : List String → String → String
  | [], _ => ""
  | [a], _ => a
  | a :: b :: rest, sep => a ++ sep ++ stringsJoin (b :: rest) sep

/-- The endpoint built at the start of `PrintComponent`. -/
def componentEndpoint (route : String) (service : String) (opts : Options) : String :=
  let requestFilters :=
    if opts.Filters.length > 0 then "&filter=" ++ stringsJoin opts.Filters "&filter=" else ""
  "/system/v1" ++ route ++ "/logs/v2/component" ++ service ++ "?skip=" ++ toString opts.Skip
    ++ requestFilters

/-- The endpoint built in `PrintTask` and, by the same format, in `FollowTask`. -/
def taskEndpoint (taskID : String) (file : String) (opts : Options) : String :=
  "/system/v1/logs/v2/task/" ++ taskID ++ "/file/" ++ file ++ "?cursor=END&skip="
    ++ toString opts.Skip

/-! ## Reading loops -/

/-- The constant `bufio.MaxScanTokenSize`, the size of the buffer of a scanner. -/
def maxScanTokenSize : Nat := 64 * 1024

/-- The function `dropCR` of package bufio: drop one final carriage return. -/
def dropCR (data : List Char) : List Char :=
  if data.getLast? = some '\r' then data.dropLast else data

/-- The tokens that `bufio.NewScanner(body)` delivers with its default split
function `ScanLines`, `cur` being the bytes of the current line read so far:
each line without its newline and final carriage return, a final line without
newline when it is not empty.  A line is delivered when it fits, with its
newline, in the buffer; at the first line that does not, `Scan` reports false
and the scanning stops. -/
def scanLinesFrom (cur : List Char) : List Char → List String
  | [] =>
    if cur = [] then []
    else if cur.length + 1 ≤ maxScanTokenSize then [String.mk (dropCR cur)] else []
  | b :: rest =>
    if b = '\n' then
      if cur.length + 1 ≤ maxScanTokenSize then String.mk (dropCR cur) :: scanLinesFrom [] rest
      else []
    else scanLinesFrom (cur ++ [b]) rest

/-- The tokens of `for scanner := bufio.NewScanner(resp.Body); scanner.Scan(); ...`.
A read error ends the data like the end of the body does; the loop does not
look at `scanner.Err()`. -/
def scanLines (body : Body) : List String :=
  scanLinesFrom [] body.data.data

/-- The loop over the scanned lines of `PrintComponent`: each token goes to
`printEntry`; the first error is returned. -/
def printLines (js : JSON) (c : Client) (opts : Options) : List String → State → Option Error × State
  | [], st => (none, st)
  | line :: rest, st =>
    match printEntry js c line opts st with
    | (some err, st1) => (some err, st1)
    | (none, st1) => printLines js c opts rest st1

/-- The loop `for msg := range events` of `PrintComponent` and `FollowTask`
followed by `return nil`, `handle` being what is done with a frame that is not
empty: frames without data are skipped and the first error is returned.  After
the last frame the loop ends, and nil is returned, only when the channel is
closed; on a channel left open the receive blocks. -/
def rangeEvents (handle : String → State → Option Error × State) (closed : Bool) :
    List String → State → Outcome × State
  | [], st => (if closed then Outcome.returned none else Outcome.blocked, st)
  | msg :: rest, st =>
    if msg.length = 0 then rangeEvents handle closed rest st
    else
      match handle msg st with
      | (some err, st1) => (Outcome.returned (some err), st1)
      | (none, st1) => rangeEvents handle closed rest st1

/-- The statement `defer client.Unsubscribe(events)`: the unsubscription runs
when the function returns, and not while it is blocked. -/
def deferUnsubscribe (r : Outcome × State) : Outcome × State :=
  match r.1 with
  | Outcome.returned err => (Outcome.returned err, r.2.unsubscribe)
  | Outcome.blocked => (Outcome.blocked, r.2)

/-! ## Operations -/

/-- `Client.PrintComponent`. -/
def PrintComponent (js : JSON) (c : Client) (route : String) (service : String) (opts : Options)
    (st : State) : Outcome × State :=
  let endpoint := componentEndpoint route service opts
  if opts.Follow then
    let st := st.record (Call.subscribe (c.http.baseURL ++ endpoint))
    match c.http.subscribe (c.http.baseURL ++ endpoint) with
    | .error msg => (Outcome.returned (some (Error.transport msg)), st)
    | .ok events =>
      deferUnsubscribe
        (rangeEvents (fun data s => printEntry js c data opts s) events.closed events.frames st)
  else
    let st := st.record (Call.get endpoint "application/json")
    match c.http.get endpoint "application/json" with
    | .error msg => (Outcome.returned (some (Error.transport msg)), st)
    | .ok resp =>
      if resp.StatusCode ≠ 200 then (Outcome.returned (some (httpResponseToError resp)), st)
      else
        let r := printLines js c opts (scanLines resp.Body) st
        (Outcome.returned r.1, r.2)

/-- `Client.FollowTask`. -/
def FollowTask (js : JSON) (c : Client) (taskID : String) (file : String) (printLogs : Bool)
    (opts : Options) (st : State) : Outcome × State :=
  let endpoint := taskEndpoint taskID file opts
  let st := st.record (Call.subscribe (c.http.baseURL ++ endpoint))
  match c.http.subscribe (c.http.baseURL ++ endpoint) with
  | .error msg => (Outcome.returned (some (Error.transport msg)), st)
  | .ok events =>
    deferUnsubscribe
      (rangeEvents
        (fun data s => if printLogs then printEntry js c data opts s else dumpEntry js data s)
        events.closed events.frames st)

/-- `Client.PrintTask`. -/
def PrintTask (js : JSON) (c : Client) (taskID : String) (file : String) (opts : Options)
    (st : State) : Outcome × State :=
  if opts.Follow then FollowTask js c taskID file true opts st
  else
    let endpoint := taskEndpoint taskID file opts
    let st := st.record (Call.get endpoint "text/plain")
    match c.http.get endpoint "text/plain" with
    | .error msg => (Outcome.returned (some (Error.transport msg)), st)
    | .ok resp =>
      if resp.StatusCode ≠ 200 then (Outcome.returned (some (httpResponseToError resp)), st)
      else
        match resp.Body.readErr with
        | some msg => (Outcome.returned (some (Error.transport msg)), st)
        | none => (Outcome.returned none, st.write resp.Body.data)

/-! ## Sample data -/

/-- A journal line as the logging service sends it. -/
def sampleLine : String :=
  "\x7b\"fields\":\x7b\"MESSAGE\":\"Started agent\",\"PRIORITY\":\"3\",\"SYSLOG_IDENTIFIER\":\"dcos-mesos-slave\",\"_PID\":\"1234\"\x7d,\"realtime_timestamp\":1546300800123456\x7d"

/-- The entry that `sampleLine` decodes to. -/
def sampleEntry : Entry :=
  { Fields := { Message := "Started agent", Priority := "3",
                SyslogIdentifier := "dcos-mesos-slave", PID := "1234" }
    RealtimeTimestamp := 1546300800123456 }

/-- A journal line without PID whose message carries an escape sequence, written
as a JSON escape on the wire. -/
def escLine : String :=
  "\x7b\"fields\":\x7b\"MESSAGE\":\"\\u001b[1mbold\",\"PRIORITY\":\"6\",\"SYSLOG_IDENTIFIER\":\"sh\",\"_PID\":\"\"\x7d,\"realtime_timestamp\":-1\x7d"

/-- The entry that `escLine` decodes to. -/
def escEntry : Entry :=
  { Fields := { Message := "\x1b[1mbold", Priority := "6", SyslogIdentifier := "sh", PID := "" }
    RealtimeTimestamp := -1 }

/-- A stand-in for the json package on the sample lines: it decodes
`sampleLine` and `escLine` to their entries and rejects every other text; the
encoded form is a fixed object holding the message length. -/
def sampleJSON : JSON :=
  { unmarshal := fun raw =>
      if raw = sampleLine then .ok sampleEntry
      else if raw = escLine then .ok escEntry
      else .error "invalid character"
    encode := fun indent entry =>
      if indent then "\x7b\n    \"n\": " ++ toString entry.Fields.Message.length ++ "\n\x7d\n"
      else "\x7b\"n\":" ++ toString entry.Fields.Message.length ++ "\x7d\n" }

/-- A transport that answers every `Get` with `resp` and every subscription
with the frames `events` on a channel that is closed after them. -/
def sampleHTTP (resp : Response) (events : List String) : HTTPClient :=
  { get := fun _ _ => .ok resp
    baseURL := "https://cluster"
    subscribe := fun _ => .ok { frames := events, closed := true } }

/-- The empty sink at the start of a run. -/
def emptyState : State := { out := "", calls := [], unsubscribed := 0 }

/-- Default options: no filter, historical, default format, the last ten entries. -/
def sampleOpts : Options := { Filters := [], Follow := false, Format := "", Skip := -10 }

/-- A client whose sink is not a terminal, over a transport that answers `resp`
and delivers `events`. -/
def plainClient (resp : Response) (events : List String) : Client :=
  NewClient "linux" (sampleHTTP resp events) { isFile := false, isTerminal := false }

/-- A client whose sink is a terminal on a UNIX platform. -/
def colorClient (resp : Response) (events : List String) : Client :=
  NewClient "linux" (sampleHTTP resp events) { isFile := true, isTerminal := true }

/-- An empty response with the given status. -/
def emptyResponse (status : Int) : Response :=
  { StatusCode := status, Body := { data := "", readErr := none } }

/-- The client `c` on a transport whose subscriptions deliver the frames
`events`, on a channel that is closed after them (`closed = true`) or left
open (`closed = false`). -/
def Client.withEvents (c : Client) (events : List String) (closed : Bool) : Client :=
  { c with http := { c.http with subscribe := fun _ => .ok { frames := events, closed := closed } } }

/-- Whether a frame carries data: the frames the follow loop does not skip. -/
def hasData (msg : String) : Bool := decide (msg.length ≠ 0)

/-- The token the scanner delivers for a line: the line without its final
carriage return. -/
def lineToken (line : String) : String := String.mk (dropCR line.data)

/-- A stand-in for the json package that decodes every text to the sample entry. -/
def anyJSON : JSON := { sampleJSON with unmarshal := fun _ => .ok sampleEntry }

/-- A line of as many bytes as the scanner buffer holds. -/
def longLine : String := String.mk (List.replicate maxScanTokenSize 'x')

/-! ## Notions used in the statements -/

/-- The ESC byte that starts a terminal escape sequence. -/
def ESC : Char := '\x1b'

/-- The texts of a list, one after the other. -/
def concatAll : List String → String
  | [] => ""
  | s :: rest => s ++ concatAll rest

/-- The bytes that `printEntry` writes for a raw entry: its output on an empty sink. -/
def rendered (js : JSON) (c : Client) (opts : Options) (rawEntry : String) : String :=
  (printEntry js c rawEntry opts emptyState).2.out

/-- The bytes that `dumpEntry` writes for a raw entry: its output on an empty sink. -/
def dumped (js : JSON) (rawEntry : String) : String :=
  (dumpEntry js rawEntry emptyState).2.out

/-- The default-mode line as the specification words it: the date stamp, a
space, the identifier, the pid in brackets directly after the identifier when
it is not empty, a colon and a space, the message, a newline. -/
def specDefaultLine (entry : Entry) : String :=
  formatUTC (entry.RealtimeTimestamp.tdiv 1000000) ++ " " ++ entry.Fields.SyslogIdentifier
    ++ (if entry.Fields.PID ≠ "" then "[" ++ entry.Fields.PID ++ "]" else "") ++ ": "
    ++ entry.Fields.Message ++ "\n"

end Logs

/-! ## Theorems -/

namespace Logs

/-! ### The sink -/

theorem write_empty (st : State) : st.write "" = st := by
  cases st
  simp [State.write]

theorem write_write (st : State) (a b : String) : (st.write a).write b = st.write (a ++ b) := by
  simp [State.write, String.append_assoc]

theorem write_out (st : State) (a : String) : (st.write a).out = st.out ++ a := rfl

theorem emptyState_write (a : String) : (emptyState.write a).out = a := by
  simp [State.write, emptyState]

theorem setColor_eq (c : Client) (p : String) (st : State) :
    setColor c p st = st.write (if c.colored then "\x1b[0;" ++ colorCode p ++ "m" else "") := by
  unfold setColor
  split <;> simp [write_empty]

theorem resetColor_eq (c : Client) (st : State) :
    resetColor c st = st.write (if c.colored then "\x1b[0m" else "") := by
  unfold resetColor
  split <;> simp [write_empty]

/-- The formatter only appends to the sink: its error and the bytes it writes
are those of a run on an empty sink. -/
theorem printEntry_eq (js : JSON) (c : Client) (raw : String) (opts : Options) (st : State) :
    printEntry js c raw opts st
      = ((printEntry js c raw opts emptyState).1, st.write (rendered js c opts raw)) := by
  unfold rendered printEntry
  cases js.unmarshal raw with
  | error msg => simp [write_empty, emptyState]
  | ok entry =>
    simp only [setColor_eq, resetColor_eq, write_write]
    split_ifs <;> simp [emptyState_write]

theorem dumpEntry_eq (js : JSON) (raw : String) (st : State) :
    dumpEntry js raw st = ((dumpEntry js raw emptyState).1, st.write (dumped js raw)) := by
  unfold dumped dumpEntry
  cases js.unmarshal raw with
  | error msg => simp [write_empty, emptyState]
  | ok entry => simp [emptyState_write]

/-! ### Error mapping -/

/-- C3: for every response with status code s, httpResponseToError returns the
error "no logs found" when s = 204, the error "unexpected status code s" (s in
decimal) when 200 <= s < 400 and s is neither 204 nor 200, and an HTTPError
whose Response field is that same response when s >= 400. -/
theorem httpResponseToError_spec (resp : Response) :
    (resp.StatusCode = 204 → httpResponseToError resp = Error.errorf "no logs found")
    ∧ (200 ≤ resp.StatusCode → resp.StatusCode < 400 → resp.StatusCode ≠ 204 →
        resp.StatusCode ≠ 200 →
        httpResponseToError resp
          = Error.errorf ("unexpected status code " ++ toString resp.StatusCode))
    ∧ (400 ≤ resp.StatusCode → httpResponseToError resp = Error.httpError resp) := by
  refine ⟨?_, ?_, ?_⟩
  · intro h
    simp [httpResponseToError, h]
  · intro _ hlt h204 _
    simp [httpResponseToError, h204, hlt]
  · intro h
    have h204 : resp.StatusCode ≠ 204 := by omega
    have hge : ¬ resp.StatusCode < 400 := by omega
    simp [httpResponseToError, h204, hge]

/-- The mapping at the statuses 204, 302 and 503. -/
theorem httpResponseToError_spec_witness :
    httpResponseToError (emptyResponse 204) = Error.errorf "no logs found"
    ∧ httpResponseToError (emptyResponse 302) = Error.errorf "unexpected status code 302"
    ∧ httpResponseToError (emptyResponse 503) = Error.httpError (emptyResponse 503) :=
  ⟨(httpResponseToError_spec (emptyResponse 204)).1 (by decide),
   (httpResponseToError_spec (emptyResponse 302)).2.1 (by decide) (by decide) (by decide)
     (by decide),
   (httpResponseToError_spec (emptyResponse 503)).2.2 (by decide)⟩

/-! ### Colour policy -/

/-- C5: on a coloured client, for every priority string p, setColor writes
exactly one escape sequence: red for "0", "1", "2" and "3", yellow for "4",
bright blue for "5", and the default code for every other string, the empty
string, "6", "7" and unrecognised text included. -/
theorem setColor_colored (c : Client) (hc : c.colored = true) (p : String) (st : State) :
    setColor c p st = st.write
      (if p = "0" ∨ p = "1" ∨ p = "2" ∨ p = "3" then "\x1b[0;31m"
       else if p = "4" then "\x1b[0;33m"
       else if p = "5" then "\x1b[0;34;1m"
       else "\x1b[0;0m") := by
  simp only [setColor, hc, if_true, colorCode]
  split_ifs <;> rfl

/-- The colour codes written on a terminal for the priorities "2", "4", "5",
"6", the empty one and an unrecognised one. -/
theorem setColor_colored_witness :
    (colorClient (emptyResponse 200) []).colored = true
    ∧ (setColor (colorClient (emptyResponse 200) []) "2" emptyState).out = "\x1b[0;31m"
    ∧ (setColor (colorClient (emptyResponse 200) []) "4" emptyState).out = "\x1b[0;33m"
    ∧ (setColor (colorClient (emptyResponse 200) []) "5" emptyState).out = "\x1b[0;34;1m"
    ∧ (setColor (colorClient (emptyResponse 200) []) "6" emptyState).out = "\x1b[0;0m"
    ∧ (setColor (colorClient (emptyResponse 200) []) "" emptyState).out = "\x1b[0;0m"
    ∧ (setColor (colorClient (emptyResponse 200) []) "debug" emptyState).out = "\x1b[0;0m" := by
  refine ⟨by decide, ?_, ?_, ?_, ?_, ?_, ?_⟩
  · rw [setColor_colored _ (by decide)]; decide
  · rw [setColor_colored _ (by decide)]; decide
  · rw [setColor_colored _ (by decide)]; decide
  · rw [setColor_colored _ (by decide)]; decide
  · rw [setColor_colored _ (by decide)]; decide
  · rw [setColor_colored _ (by decide)]; decide

/-! ### The default format -/

/-- C1, as far as the code has it by design: for every entry that decodes, in
default mode (Format neither "json", "json-pretty" nor "cat") on a client
without colours, printEntry returns nil and writes the UTC date stamp of the
timestamp integer-divided by 1,000,000, then, after at most a single space
(whether one stands there is left open), the syslog identifier, then a space
and "[" + pid + "]" when the PID is not empty (nothing when it is), then ": ",
the message and a newline. -/
theorem printEntry_default_plain (js : JSON) (c : Client) (raw : String) (opts : Options)
    (st : State) (entry : Entry) (hc : c.colored = false) (hdec : js.unmarshal raw = .ok entry)
    (hjson : opts.Format ≠ "json") (hpretty : opts.Format ≠ "json-pretty")
    (hcat : opts.Format ≠ "cat") :
    ∃ sep : String, (sep = "" ∨ sep = " ")
      ∧ printEntry js c raw opts st
        = (none, st.write (formatUTC (entry.RealtimeTimestamp.tdiv 1000000) ++ sep
            ++ entry.Fields.SyslogIdentifier
            ++ (if entry.Fields.PID = "" then "" else " [" ++ entry.Fields.PID ++ "]")
            ++ ": " ++ entry.Fields.Message ++ "\n")) := by
  refine ⟨"", Or.inl rfl, ?_⟩
  unfold printEntry
  rw [hdec]
  simp only [setColor_eq, resetColor_eq, write_write, hc, hjson, hpretty, hcat, if_false,
    pidSegment]
  by_cases hp : entry.Fields.PID = "" <;> simp [hp, String.append_assoc]

/-- The default line of the sample entry on a sink that is not a terminal:
the date stamp, the identifier after at most one space, the pid segment, the
message. -/
theorem printEntry_default_plain_witness :
    ∃ sep : String, (sep = "" ∨ sep = " ")
      ∧ printEntry sampleJSON (plainClient (emptyResponse 200) []) sampleLine sampleOpts
          emptyState
        = (none, emptyState.write
            ("2019-01-01 00:00:00 UTC" ++ sep ++ "dcos-mesos-slave [1234]: Started agent\n")) := by
  obtain ⟨sep, hsep, h⟩ := printEntry_default_plain sampleJSON
    (plainClient (emptyResponse 200) []) sampleLine sampleOpts emptyState sampleEntry
    (by decide) (by decide) (by decide) (by decide) (by decide)
  refine ⟨sep, hsep, ?_⟩
  rw [h]
  rcases hsep with rfl | rfl <;> decide

/-- C1 fails as stated: the sample entry, with a PID, and the entry without
PID are written without a space after the date stamp, and the pid segment
comes after a space; neither line is the one the claim describes. -/
theorem printEntry_default_counterexample :
    (plainClient (emptyResponse 200) []).colored = false
    ∧ sampleJSON.unmarshal sampleLine = .ok sampleEntry
    ∧ (printEntry sampleJSON (plainClient (emptyResponse 200) []) sampleLine sampleOpts
        emptyState).2.out = "2019-01-01 00:00:00 UTCdcos-mesos-slave [1234]: Started agent\n"
    ∧ specDefaultLine sampleEntry
        = "2019-01-01 00:00:00 UTC dcos-mesos-slave[1234]: Started agent\n"
    ∧ sampleJSON.unmarshal escLine = .ok escEntry
    ∧ (printEntry sampleJSON (plainClient (emptyResponse 200) []) escLine sampleOpts
        emptyState).2.out = "1970-01-01 00:00:00 UTCsh: \x1b[1mbold\n"
    ∧ specDefaultLine escEntry = "1970-01-01 00:00:00 UTC sh: \x1b[1mbold\n" := by
  decide

/-- The bytes of a default-mode rendering, on any client. -/
theorem printEntry_default_out (js : JSON) (c : Client) (raw : String) (opts : Options)
    (st : State) (entry : Entry) (hdec : js.unmarshal raw = .ok entry)
    (hjson : opts.Format ≠ "json") (hpretty : opts.Format ≠ "json-pretty")
    (hcat : opts.Format ≠ "cat") :
    (printEntry js c raw opts st).2.out
      = st.out ++ ((if c.colored then "\x1b[0;" ++ colorCode entry.Fields.Priority ++ "m" else "")
          ++ formatUTC (entry.RealtimeTimestamp.tdiv 1000000) ++ entry.Fields.SyslogIdentifier
          ++ pidSegment entry ++ ": " ++ entry.Fields.Message
          ++ (if c.colored then "\x1b[0m" else "") ++ "\n") := by
  unfold printEntry
  rw [hdec]
  simp only [setColor_eq, resetColor_eq, write_write, write_out, hjson, hpretty, hcat,
    if_false, String.append_assoc]

/-- C6: for every entry rendered in default mode, on any client, the bytes
written are the colour code (if any), the date stamp, the identifier, the pid
segment, ": ", the message, the colour reset (if any) and a newline, so ": "
stands immediately before the message; the pid segment between the identifier
and ": " is empty if and only if the PID field is the empty string, and holds
the bracketed PID otherwise. -/
theorem printEntry_default_shape (js : JSON) (c : Client) (raw : String) (opts : Options)
    (st : State) (entry : Entry) (hdec : js.unmarshal raw = .ok entry)
    (hjson : opts.Format ≠ "json") (hpretty : opts.Format ≠ "json-pretty")
    (hcat : opts.Format ≠ "cat") :
    (printEntry js c raw opts st).2.out
      = st.out ++ ((if c.colored then "\x1b[0;" ++ colorCode entry.Fields.Priority ++ "m" else "")
          ++ formatUTC (entry.RealtimeTimestamp.tdiv 1000000) ++ entry.Fields.SyslogIdentifier
          ++ pidSegment entry ++ ": " ++ entry.Fields.Message
          ++ (if c.colored then "\x1b[0m" else "") ++ "\n")
    ∧ (pidSegment entry = "" ↔ entry.Fields.PID = "")
    ∧ (entry.Fields.PID ≠ "" → pidSegment entry = " [" ++ entry.Fields.PID ++ "]") := by
  refine ⟨printEntry_default_out js c raw opts st entry hdec hjson hpretty hcat, ?_, ?_⟩
  · unfold pidSegment
    by_cases hp : entry.Fields.PID = ""
    · simp [hp]
    · simp only [hp, ne_eq, not_false_eq_true, if_true, iff_false]
      intro h
      have := congrArg String.length h
      simp only [String.length_append] at this
      have h3 : "]".length = 1 := by decide
      have h4 : "".length = 0 := by decide
      omega
  · intro hp
    simp [pidSegment, hp]

/-- The shape of the default line of the sample entry on a terminal and of the
entry without PID on a sink that is not one. -/
theorem printEntry_default_shape_witness :
    (printEntry sampleJSON (colorClient (emptyResponse 200) []) sampleLine sampleOpts
        emptyState).2.out
      = "\x1b[0;31m2019-01-01 00:00:00 UTCdcos-mesos-slave [1234]: Started agent\x1b[0m\n"
    ∧ pidSegment sampleEntry = " [1234]"
    ∧ (printEntry sampleJSON (plainClient (emptyResponse 200) []) escLine sampleOpts
        emptyState).2.out = "1970-01-01 00:00:00 UTCsh: \x1b[1mbold\n"
    ∧ pidSegment escEntry = "" := by
  have h1 := printEntry_default_shape sampleJSON (colorClient (emptyResponse 200) []) sampleLine
    sampleOpts emptyState sampleEntry (by decide) (by decide) (by decide) (by decide)
  have h2 := printEntry_default_shape sampleJSON (plainClient (emptyResponse 200) []) escLine
    sampleOpts emptyState escEntry (by decide) (by decide) (by decide) (by decide)
  refine ⟨?_, h1.2.2 (by decide), ?_, h2.2.1.2 (by decide)⟩
  · rw [h1.1]; decide
  · rw [h2.1]; decide

/-! ### Escape bytes -/

theorem digitChar_ne_ESC (n : Nat) : Nat.digitChar (n % 10) ≠ ESC := by
  have h : n % 10 < 10 := Nat.mod_lt _ (by decide)
  generalize n % 10 = d at h
  interval_cases d <;> decide

theorem toDigitsCore_no_ESC (fuel : Nat) :
    ∀ (n : Nat) (ds : List Char), ESC ∉ ds → ESC ∉ Nat.toDigitsCore 10 fuel n ds := by
  induction fuel with
  | zero =>
    intro n ds h
    simpa [Nat.toDigitsCore] using h
  | succ f ih =>
    intro n ds h
    have hd : ESC ∉ Nat.digitChar (n % 10) :: ds := by
      intro hmem
      rcases List.mem_cons.mp hmem with h1 | h1
      · exact digitChar_ne_ESC _ h1.symm
      · exact h h1
    show ESC ∉ (if n / 10 = 0 then Nat.digitChar (n % 10) :: ds
      else Nat.toDigitsCore 10 f (n / 10) (Nat.digitChar (n % 10) :: ds))
    split_ifs
    · exact hd
    · exact ih _ _ hd

theorem appendInt_no_ESC (x : Int) (width : Nat) : ESC ∉ (appendInt x width).data := by
  unfold appendInt
  simp only [String.data_append, List.mem_append, not_or]
  refine ⟨?_, ?_, ?_⟩
  · split_ifs <;> decide
  · intro h
    have := List.eq_of_mem_replicate h
    exact absurd this (by decide)
  · exact toDigitsCore_no_ESC _ _ _ (by simp)

/-- The date stamp holds digits and punctuation only. -/
theorem formatUTC_no_ESC (sec : Int) : ESC ∉ (formatUTC sec).data := by
  unfold formatUTC
  simp only [String.data_append, List.mem_append, not_or]
  refine ⟨⟨⟨⟨⟨⟨⟨⟨⟨⟨⟨?_, ?_⟩, ?_⟩, ?_⟩, ?_⟩, ?_⟩, ?_⟩, ?_⟩, ?_⟩, ?_⟩, ?_⟩, ?_⟩ <;>
    first
      | exact appendInt_no_ESC _ _
      | decide

theorem pidSegment_no_ESC (entry : Entry) (h : ESC ∉ entry.Fields.PID.data) :
    ESC ∉ (pidSegment entry).data := by
  unfold pidSegment
  split_ifs
  · simp only [String.data_append, List.mem_append, not_or]
    exact ⟨⟨by decide, h⟩, by decide⟩
  · decide

/-- What a client without colours writes for an entry that decodes. -/
theorem rendered_plain (js : JSON) (c : Client) (raw : String) (opts : Options) (entry : Entry)
    (hc : c.colored = false) (hdec : js.unmarshal raw = .ok entry) :
    rendered js c opts raw
      = if opts.Format = "json-pretty" then js.encode true entry
        else if opts.Format = "json" then js.encode false entry
        else if opts.Format = "cat" then entry.Fields.Message ++ "\n"
        else formatUTC (entry.RealtimeTimestamp.tdiv 1000000) ++ entry.Fields.SyslogIdentifier
          ++ pidSegment entry ++ ": " ++ entry.Fields.Message ++ "\n" := by
  unfold rendered printEntry
  rw [hdec]
  simp only [setColor_eq, resetColor_eq, write_write, hc, Bool.false_eq_true, if_false]
  split_ifs <;> simp [emptyState_write, String.append_assoc]

theorem NewClient_plain (goos : String) (http : HTTPClient) (w : Writer)
    (hplain : w.isFile = false ∨ w.isTerminal = false ∨ goos = "windows") :
    (NewClient goos http w).colored = false := by
  unfold NewClient
  rcases hplain with h | h | h <;> simp [h]

/-- C2, as the code has it: on a client without colours (the sink is not a
file or not a terminal, or the platform is Windows), for every format,
printEntry adds no escape sequence of its own: for an entry that decodes it
writes the encoder output in the json formats, the message and a newline in
cat format, and date stamp, identifier, pid segment, ": ", message and newline
in default format, so the bytes written hold no ESC byte whenever the
message, the identifier, the PID and the encoder output hold none; and
rendering the same raw entry a second time writes the same bytes again and
returns the same result. -/
theorem printEntry_plain (js : JSON) (goos : String) (http : HTTPClient) (w : Writer)
    (raw : String) (opts : Options) (st : State)
    (hplain : w.isFile = false ∨ w.isTerminal = false ∨ goos = "windows") :
    (NewClient goos http w).colored = false
    ∧ (printEntry js (NewClient goos http w) raw opts st).2
        = st.write (rendered js (NewClient goos http w) opts raw)
    ∧ printEntry js (NewClient goos http w) raw opts
          (printEntry js (NewClient goos http w) raw opts st).2
        = ((printEntry js (NewClient goos http w) raw opts st).1,
           (st.write (rendered js (NewClient goos http w) opts raw)).write
             (rendered js (NewClient goos http w) opts raw))
    ∧ (∀ entry, js.unmarshal raw = .ok entry →
        rendered js (NewClient goos http w) opts raw
          = (if opts.Format = "json-pretty" then js.encode true entry
             else if opts.Format = "json" then js.encode false entry
             else if opts.Format = "cat" then entry.Fields.Message ++ "\n"
             else formatUTC (entry.RealtimeTimestamp.tdiv 1000000)
               ++ entry.Fields.SyslogIdentifier ++ pidSegment entry ++ ": "
               ++ entry.Fields.Message ++ "\n"))
    ∧ (∀ entry, js.unmarshal raw = .ok entry →
        ESC ∉ entry.Fields.Message.data → ESC ∉ entry.Fields.SyslogIdentifier.data →
        ESC ∉ entry.Fields.PID.data →
        ESC ∉ (js.encode true entry).data → ESC ∉ (js.encode false entry).data →
        ESC ∉ (rendered js (NewClient goos http w) opts raw).data) := by
  have hc := NewClient_plain goos http w hplain
  refine ⟨hc, ?_, ?_, ?_, ?_⟩
  · rw [printEntry_eq]
  · rw [printEntry_eq js _ raw opts st]
    simp only
    rw [printEntry_eq]
  · intro entry hdec
    exact rendered_plain js _ raw opts entry hc hdec
  · intro entry hdec hm hi hp he1 he2
    rw [rendered_plain js _ raw opts entry hc hdec]
    split_ifs
    · exact he1
    · exact he2
    · simp only [String.data_append, List.mem_append, not_or]
      exact ⟨hm, by decide⟩
    · simp only [String.data_append, List.mem_append, not_or]
      exact ⟨⟨⟨⟨⟨formatUTC_no_ESC _, hi⟩, pidSegment_no_ESC entry hp⟩, by decide⟩, hm⟩,
        by decide⟩

/-- The sample entry on a Windows terminal: the same line twice, without an
ESC byte. -/
theorem printEntry_plain_witness :
    (printEntry sampleJSON
        (NewClient "windows" (sampleHTTP (emptyResponse 200) []) ⟨true, true⟩) sampleLine
        sampleOpts
        (printEntry sampleJSON
          (NewClient "windows" (sampleHTTP (emptyResponse 200) []) ⟨true, true⟩) sampleLine
          sampleOpts emptyState).2).2.out
      = "2019-01-01 00:00:00 UTCdcos-mesos-slave [1234]: Started agent\n"
        ++ "2019-01-01 00:00:00 UTCdcos-mesos-slave [1234]: Started agent\n"
    ∧ ESC ∉ (rendered sampleJSON
        (NewClient "windows" (sampleHTTP (emptyResponse 200) []) ⟨true, true⟩) sampleOpts
        sampleLine).data := by
  have h := printEntry_plain sampleJSON "windows" (sampleHTTP (emptyResponse 200) [])
    ⟨true, true⟩ sampleLine sampleOpts emptyState (Or.inr (Or.inr rfl))
  refine ⟨?_, h.2.2.2.2 sampleEntry (by decide) (by decide) (by decide) (by decide) (by decide)
    (by decide)⟩
  rw [h.2.2.1]
  decide

/-- C2 fails as stated: on a sink that is not a terminal, the entry whose
message carries an escape sequence is written with its ESC byte, in cat format
and in default format. -/
theorem printEntry_plain_counterexample :
    (plainClient (emptyResponse 200) []).colored = false
    ∧ sampleJSON.unmarshal escLine = .ok escEntry
    ∧ (printEntry sampleJSON (plainClient (emptyResponse 200) []) escLine
        { sampleOpts with Format := "cat" } emptyState).2.out = "\x1b[1mbold\n"
    ∧ ESC ∈ (printEntry sampleJSON (plainClient (emptyResponse 200) []) escLine
        { sampleOpts with Format := "cat" } emptyState).2.out.data
    ∧ ESC ∈ (printEntry sampleJSON (plainClient (emptyResponse 200) []) escLine sampleOpts
        emptyState).2.out.data := by
  decide

/-! ### Historical responses that are not 200 -/

/-- C4: for every historical component-log fetch (Follow = false) whose
response status is not 200, whatever the body, filters, skip and format,
PrintComponent returns httpResponseToError of the response and leaves the sink
unchanged; for status 204 the error is "no logs found". -/
theorem PrintComponent_not_ok (js : JSON) (c : Client) (route : String) (service : String)
    (opts : Options) (st : State) (resp : Response) (hf : opts.Follow = false)
    (hget : c.http.get (componentEndpoint route service opts) "application/json" = .ok resp)
    (hs : resp.StatusCode ≠ 200) :
    (PrintComponent js c route service opts st).1
      = Outcome.returned (some (httpResponseToError resp))
    ∧ (PrintComponent js c route service opts st).2.out = st.out
    ∧ (PrintComponent js c route service opts st).2.unsubscribed = st.unsubscribed
    ∧ (resp.StatusCode = 204 →
        (PrintComponent js c route service opts st).1
          = Outcome.returned (some (Error.errorf "no logs found"))) := by
  have h : PrintComponent js c route service opts st
      = (Outcome.returned (some (httpResponseToError resp)),
         st.record (Call.get (componentEndpoint route service opts) "application/json")) := by
    unfold PrintComponent
    simp only [hf, hget]
    simp [hs]
  rw [h]
  refine ⟨rfl, rfl, rfl, ?_⟩
  intro h204
  simp [httpResponseToError, h204]

/-- A 204 response that carries a body all the same: "no logs found", nothing
written after the earlier output. -/
theorem PrintComponent_not_ok_witness :
    (PrintComponent sampleJSON
        (plainClient { StatusCode := 204, Body := { data := sampleLine ++ "\n", readErr := none } } [])
        "/agent-1" "" { sampleOpts with Filters := ["unit=dcos-mesos-slave"] }
        { emptyState with out := "earlier output\n" }).1
      = Outcome.returned (some (Error.errorf "no logs found"))
    ∧ (PrintComponent sampleJSON
        (plainClient { StatusCode := 204, Body := { data := sampleLine ++ "\n", readErr := none } } [])
        "/agent-1" "" { sampleOpts with Filters := ["unit=dcos-mesos-slave"] }
        { emptyState with out := "earlier output\n" }).2.out
      = "earlier output\n" := by
  have h := PrintComponent_not_ok sampleJSON
    (plainClient { StatusCode := 204, Body := { data := sampleLine ++ "\n", readErr := none } } [])
    "/agent-1" "" { sampleOpts with Filters := ["unit=dcos-mesos-slave"] }
    { emptyState with out := "earlier output\n" }
    { StatusCode := 204, Body := { data := sampleLine ++ "\n", readErr := none } }
    (by decide) (by decide) (by decide)
  exact ⟨h.2.2.2 (by decide), h.2.1⟩

/-! ### The loops -/

theorem rangeEvents_filter (h : String → State → Option Error × State) (closed : Bool)
    (frames : List String) :
    ∀ st, rangeEvents h closed frames st = rangeEvents h closed (frames.filter hasData) st := by
  induction frames with
  | nil => intro st; rfl
  | cons m rest ih =>
    intro st
    by_cases hm : m.length = 0
    · have hd : hasData m = false := by simp [hasData, hm]
      simp only [List.filter_cons, hd, rangeEvents, hm, if_true]
      exact ih st
    · have hd : hasData m = true := by simp [hasData, hm]
      simp only [List.filter_cons, hd, rangeEvents, hm, if_false, if_true]
      rcases h m st with ⟨e, s1⟩
      cases e with
      | none => exact ih s1
      | some err => rfl

/-- The follow loop over frames that are all handled without error, followed
by more frames: the handled frames with data are written in order. -/
theorem rangeEvents_append (h : String → State → Option Error × State)
    (E : String → Option Error) (B : String → String)
    (hh : ∀ m s, h m s = (E m, s.write (B m))) (closed : Bool) (pre rest : List String)
    (hpre : ∀ m ∈ pre, hasData m = true → E m = none) :
    ∀ st, rangeEvents h closed (pre ++ rest) st
      = rangeEvents h closed rest (st.write (concatAll ((pre.filter hasData).map B))) := by
  induction pre with
  | nil => intro st; simp [concatAll, write_empty]
  | cons m pre ih =>
    intro st
    have ih1 := ih (fun x hx => hpre x (List.mem_cons_of_mem _ hx))
    by_cases hm : m.length = 0
    · have hd : hasData m = false := by simp [hasData, hm]
      simp only [List.cons_append, List.filter_cons, hd, rangeEvents, hm, if_true]
      exact ih1 st
    · have hd : hasData m = true := by simp [hasData, hm]
      have hE := hpre m (List.mem_cons_self _ _) hd
      simp only [List.cons_append, List.filter_cons, hd, rangeEvents, hm, if_false, if_true,
        hh, hE, List.map_cons, concatAll]
      exact (ih1 _).trans (by rw [write_write])

theorem rangeEvents_fail (h : String → State → Option Error × State)
    (E : String → Option Error) (B : String → String)
    (hh : ∀ m s, h m s = (E m, s.write (B m))) (closed : Bool) (pre post : List String)
    (bad : String) (err : Error) (hpre : ∀ m ∈ pre, hasData m = true → E m = none)
    (hbad : hasData bad = true) (hE : E bad = some err) (st : State) :
    rangeEvents h closed (pre ++ bad :: post) st
      = (Outcome.returned (some err),
         (st.write (concatAll ((pre.filter hasData).map B))).write (B bad)) := by
  rw [rangeEvents_append h E B hh closed pre (bad :: post) hpre st]
  have hm : ¬ bad.length = 0 := by simpa [hasData] using hbad
  simp only [rangeEvents, hm, if_false, hh, hE]

/-- The loop over scanned lines, while the lines are rendered without error. -/
theorem printLines_append (js : JSON) (c : Client) (opts : Options) (pre rest : List String)
    (hpre : ∀ l ∈ pre, (printEntry js c l opts emptyState).1 = none) :
    ∀ st, printLines js c opts (pre ++ rest) st
      = printLines js c opts rest (st.write (concatAll (pre.map (rendered js c opts)))) := by
  induction pre with
  | nil => intro st; simp [concatAll, write_empty]
  | cons l pre ih =>
    intro st
    have ih1 := ih (fun x hx => hpre x (List.mem_cons_of_mem _ hx))
    have hl := hpre l (List.mem_cons_self _ _)
    simp only [List.cons_append, printLines, List.map_cons, concatAll]
    rw [printEntry_eq, hl]
    simp only
    exact (ih1 _).trans (by rw [write_write])

theorem printEntry_error_iff (js : JSON) (c : Client) (raw : String) (opts : Options)
    (st : State) :
    (∀ entry, js.unmarshal raw = .ok entry → (printEntry js c raw opts st).1 = none)
    ∧ (∀ msg, js.unmarshal raw = .error msg →
        printEntry js c raw opts st = (some (Error.decode msg), st)) := by
  refine ⟨?_, ?_⟩
  · intro entry hdec
    unfold printEntry
    rw [hdec]
    simp only
    split_ifs <;> rfl
  · intro msg hdec
    unfold printEntry
    rw [hdec]

theorem dumpEntry_error_iff (js : JSON) (raw : String) (st : State) :
    (∀ entry, js.unmarshal raw = .ok entry →
        dumpEntry js raw st = (none, st.write entry.Fields.Message))
    ∧ (∀ msg, js.unmarshal raw = .error msg →
        dumpEntry js raw st = (some (Error.decode msg), st)) := by
  refine ⟨?_, ?_⟩
  · intro entry hdec
    unfold dumpEntry
    rw [hdec]
  · intro msg hdec
    unfold dumpEntry
    rw [hdec]

theorem rendered_error (js : JSON) (c : Client) (opts : Options) (raw : String) (msg : String)
    (hdec : js.unmarshal raw = .error msg) : rendered js c opts raw = "" := by
  unfold rendered
  rw [(printEntry_error_iff js c raw opts emptyState).2 msg hdec]
  rfl

theorem dumped_error (js : JSON) (raw : String) (msg : String)
    (hdec : js.unmarshal raw = .error msg) : dumped js raw = "" := by
  unfold dumped
  rw [(dumpEntry_error_iff js raw emptyState).2 msg hdec]
  rfl

/-! ### The scanner -/

theorem scanLinesFrom_line (l : List Char) (hl : '\n' ∉ l) (rest : List Char) :
    ∀ cur, scanLinesFrom cur (l ++ '\n' :: rest)
      = if (cur ++ l).length + 1 ≤ maxScanTokenSize
        then String.mk (dropCR (cur ++ l)) :: scanLinesFrom [] rest else [] := by
  induction l with
  | nil => intro cur; simp [scanLinesFrom]
  | cons b l ih =>
    intro cur
    have hb : b ≠ '\n' := fun h => hl (h ▸ List.mem_cons_self _ _)
    have hl1 : '\n' ∉ l := fun h => hl (List.mem_cons_of_mem _ h)
    simp only [List.cons_append, scanLinesFrom, hb, if_false]
    exact (ih hl1 (cur ++ [b])).trans (by simp)

theorem scanLinesFrom_last (l : List Char) (hl : '\n' ∉ l) :
    ∀ cur, scanLinesFrom cur l
      = if cur ++ l = [] then []
        else if (cur ++ l).length + 1 ≤ maxScanTokenSize then [String.mk (dropCR (cur ++ l))]
        else [] := by
  induction l with
  | nil => intro cur; simp [scanLinesFrom]
  | cons b l ih =>
    intro cur
    have hb : b ≠ '\n' := fun h => hl (h ▸ List.mem_cons_self _ _)
    have hl1 : '\n' ∉ l := fun h => hl (List.mem_cons_of_mem _ h)
    simp only [scanLinesFrom, hb, if_false]
    rw [ih hl1 (cur ++ [b])]
    simp

/-- The tokens of a body made of lines that each end in a newline, followed by
a last line without newline (possibly empty), when every line fits in the
buffer. -/
theorem scanLines_lines (lines : List String) (last : String) (err : Option String)
    (hlines : ∀ l ∈ lines, '\n' ∉ l.data ∧ l.length < maxScanTokenSize)
    (hlast : '\n' ∉ last.data ∧ last.length < maxScanTokenSize) :
    scanLines { data := concatAll (lines.map (fun l => l ++ "\n")) ++ last, readErr := err }
      = (lines ++ (if last = "" then [] else [last])).map lineToken := by
  unfold scanLines
  simp only
  induction lines with
  | nil =>
    have h0 : (concatAll (List.map (fun l => l ++ "\n") []) ++ last).data = last.data := by
      simp [concatAll]
    rw [h0, scanLinesFrom_last _ hlast.1]
    by_cases he : last = ""
    · subst he
      simp
    · have hd : last.data ≠ [] := fun h => he (String.ext h)
      have hlen2 : last.length + 1 ≤ maxScanTokenSize := hlast.2
      simp [he, hd, hlen2, lineToken]
  | cons l lines ih =>
    have hl := hlines l (List.mem_cons_self _ _)
    have ih1 := ih (fun x hx => hlines x (List.mem_cons_of_mem _ hx))
    have h0 : (concatAll (List.map (fun l => l ++ "\n") (l :: lines)) ++ last).data
        = l.data ++ '\n' :: (concatAll (List.map (fun l => l ++ "\n") lines) ++ last).data := by
      simp [concatAll, String.data_append]
    have hlen2 : l.length + 1 ≤ maxScanTokenSize := hl.2
    rw [h0, scanLinesFrom_line _ hl.1, ih1]
    simp [hlen2, lineToken]

/-- At a line that does not fit in the buffer the scanner stops without a token. -/
theorem scanLines_long (l : String) (rest : String) (err : Option String)
    (hl : '\n' ∉ l.data) (hlen : maxScanTokenSize ≤ l.length) :
    scanLines { data := l ++ "\n" ++ rest, readErr := err } = [] := by
  unfold scanLines
  have h0 : (l ++ "\n" ++ rest).data = l.data ++ '\n' :: rest.data := by
    simp [String.data_append]
  have hlen1 : ¬ (l.data.length + 1 ≤ maxScanTokenSize) := by
    have : l.length = l.data.length := rfl
    omega
  simp only [h0]
  rw [scanLinesFrom_line _ hl]
  simp only [List.nil_append]
  exact if_neg hlen1

theorem longLine_spec : '\n' ∉ longLine.data ∧ maxScanTokenSize ≤ longLine.length := by
  refine ⟨?_, ?_⟩
  · intro h
    have := List.eq_of_mem_replicate (show '\n' ∈ List.replicate maxScanTokenSize 'x' from h)
    exact absurd this (by decide)
  · show maxScanTokenSize ≤ (List.replicate maxScanTokenSize 'x').length
    rw [List.length_replicate]

/-! ### Historical component logs -/

theorem PrintComponent_ok_eq (js : JSON) (c : Client) (route : String) (service : String)
    (opts : Options) (st : State) (resp : Response) (hf : opts.Follow = false)
    (hget : c.http.get (componentEndpoint route service opts) "application/json" = .ok resp)
    (hs : resp.StatusCode = 200) :
    PrintComponent js c route service opts st
      = (Outcome.returned (printLines js c opts (scanLines resp.Body)
            (st.record (Call.get (componentEndpoint route service opts) "application/json"))).1,
         (printLines js c opts (scanLines resp.Body)
            (st.record (Call.get (componentEndpoint route service opts) "application/json"))).2) := by
  unfold PrintComponent
  simp only [hf, hget]
  simp [hs]

theorem printLines_ok (js : JSON) (c : Client) (opts : Options) (toks : List String)
    (hall : ∀ l ∈ toks, ∃ e, js.unmarshal l = .ok e) (st : State) :
    printLines js c opts toks st
      = (none, st.write (concatAll (toks.map (rendered js c opts)))) := by
  have h := printLines_append js c opts toks []
    (fun l hl => by
      obtain ⟨e, he⟩ := hall l hl
      exact (printEntry_error_iff js c l opts emptyState).1 e he) st
  simpa [printLines] using h

theorem printLines_fail (js : JSON) (c : Client) (opts : Options) (pre post : List String)
    (bad : String) (msg : String) (hpre : ∀ l ∈ pre, ∃ e, js.unmarshal l = .ok e)
    (hbad : js.unmarshal bad = .error msg) (st : State) :
    printLines js c opts (pre ++ bad :: post) st
      = (some (Error.decode msg), st.write (concatAll (pre.map (rendered js c opts)))) := by
  rw [printLines_append js c opts pre (bad :: post)
    (fun l hl => by
      obtain ⟨e, he⟩ := hpre l hl
      exact (printEntry_error_iff js c l opts emptyState).1 e he) st]
  simp only [printLines]
  rw [(printEntry_error_iff js c bad opts _).2 msg hbad]

/-- C7, as the code has it: for every historical component-log response with
status 200 whose body is a sequence of lines, each ended by a newline (the
last one possibly without), each shorter than the 64 KiB scanner buffer,
PrintComponent renders the lines, without their final carriage return, one by
one in input order: if every line decodes, the sink receives exactly the
renderings of all lines in order and the call returns nil; if a line is the
first that fails to decode, the sink receives exactly the renderings of the
lines before it and the call returns that decode error.  In default format a
rendering begins with the UTC date stamp on a client without colours, and
with the colour code followed by the date stamp on a coloured client. -/
theorem PrintComponent_historical (js : JSON) (c : Client) (route : String) (service : String)
    (opts : Options) (st : State) (resp : Response) (lines : List String) (last : String)
    (hf : opts.Follow = false)
    (hget : c.http.get (componentEndpoint route service opts) "application/json" = .ok resp)
    (hs : resp.StatusCode = 200)
    (hbody : resp.Body.data = concatAll (lines.map (fun l => l ++ "\n")) ++ last)
    (hlines : ∀ l ∈ lines, '\n' ∉ l.data ∧ l.length < maxScanTokenSize)
    (hlast : '\n' ∉ last.data ∧ last.length < maxScanTokenSize) :
    ((∀ l ∈ lines ++ (if last = "" then [] else [last]), ∃ e, js.unmarshal (lineToken l) = .ok e) →
      PrintComponent js c route service opts st
        = (Outcome.returned none,
           (st.record (Call.get (componentEndpoint route service opts) "application/json")).write
             (concatAll ((lines ++ (if last = "" then [] else [last])).map
               (fun l => rendered js c opts (lineToken l))))))
    ∧ (∀ (pre post : List String) (bad msg : String),
        lines ++ (if last = "" then [] else [last]) = pre ++ bad :: post →
        (∀ l ∈ pre, ∃ e, js.unmarshal (lineToken l) = .ok e) →
        js.unmarshal (lineToken bad) = .error msg →
        PrintComponent js c route service opts st
          = (Outcome.returned (some (Error.decode msg)),
             (st.record (Call.get (componentEndpoint route service opts) "application/json")).write
               (concatAll (pre.map (fun l => rendered js c opts (lineToken l))))))
    ∧ (∀ (raw : String) (entry : Entry), js.unmarshal raw = .ok entry →
        opts.Format ≠ "json" → opts.Format ≠ "json-pretty" → opts.Format ≠ "cat" →
        rendered js c opts raw
          = (if c.colored then "\x1b[0;" ++ colorCode entry.Fields.Priority ++ "m" else "")
            ++ formatUTC (entry.RealtimeTimestamp.tdiv 1000000)
            ++ (entry.Fields.SyslogIdentifier ++ pidSegment entry ++ ": " ++ entry.Fields.Message
              ++ (if c.colored then "\x1b[0m" else "") ++ "\n")) := by
  have hscan : scanLines resp.Body
      = (lines ++ (if last = "" then [] else [last])).map lineToken := by
    have h := scanLines_lines lines last resp.Body.readErr hlines hlast
    rw [← hbody] at h
    exact h
  have hrun := PrintComponent_ok_eq js c route service opts st resp hf hget hs
  refine ⟨?_, ?_, ?_⟩
  · intro hall
    rw [hrun, hscan, printLines_ok js c opts _
      (fun t ht => by
        obtain ⟨l, hl, rfl⟩ := List.mem_map.mp ht
        exact hall l hl), List.map_map]
    rfl
  · intro pre post bad msg hsplit hpre hbad
    rw [hrun, hscan, hsplit, List.map_append, List.map_cons,
      printLines_fail js c opts _ _ _ msg
        (fun t ht => by
          obtain ⟨l, hl, rfl⟩ := List.mem_map.mp ht
          exact hpre l hl) hbad, List.map_map]
    rfl
  · intro raw entry hdec h1 h2 h3
    have h := printEntry_default_out js c raw opts emptyState entry hdec h1 h2 h3
    unfold rendered
    rw [h]
    simp [emptyState, String.append_assoc]

set_option maxRecDepth 8000 in
/-- Two valid lines, the first ended by a carriage return and a newline, then
an invalid one and a valid one: the two renderings in order, each beginning
with the date stamp, and the decode error. -/
theorem PrintComponent_historical_witness :
    PrintComponent sampleJSON
        (plainClient
          { StatusCode := 200,
            Body := { data := concatAll ([sampleLine ++ "\r", escLine, "oops"].map
                        (fun l => l ++ "\n")) ++ sampleLine,
                      readErr := none } } [])
        "/agent-1" "" { sampleOpts with Filters := ["unit=dcos-mesos-slave"] } emptyState
      = (Outcome.returned (some (Error.decode "invalid character")),
         { out := "2019-01-01 00:00:00 UTCdcos-mesos-slave [1234]: Started agent\n"
             ++ "1970-01-01 00:00:00 UTCsh: \x1b[1mbold\n",
           calls := [Call.get
             "/system/v1/agent-1/logs/v2/component?skip=-10&filter=unit=dcos-mesos-slave"
             "application/json"],
           unsubscribed := 0 }) := by
  have h := (PrintComponent_historical sampleJSON
    (plainClient
      { StatusCode := 200,
        Body := { data := concatAll ([sampleLine ++ "\r", escLine, "oops"].map
                    (fun l => l ++ "\n")) ++ sampleLine,
                  readErr := none } } [])
    "/agent-1" "" { sampleOpts with Filters := ["unit=dcos-mesos-slave"] } emptyState
    { StatusCode := 200,
      Body := { data := concatAll ([sampleLine ++ "\r", escLine, "oops"].map
                  (fun l => l ++ "\n")) ++ sampleLine,
                readErr := none } }
    [sampleLine ++ "\r", escLine, "oops"] sampleLine (by decide) (by decide) (by decide) rfl
    (by decide) (by decide)).2.1 [sampleLine ++ "\r", escLine] [sampleLine] "oops"
    "invalid character" (by decide)
    (fun l hl => by
      rcases List.mem_cons.mp hl with rfl | hl
      · exact ⟨sampleEntry, by decide⟩
      · rcases List.mem_cons.mp hl with rfl | hl
        · exact ⟨escEntry, by decide⟩
        · exact absurd hl (List.not_mem_nil _))
    (by decide)
  rw [h]
  decide

set_option maxRecDepth 8000 in
/-- C7 fails as stated.  On a terminal the rendering of a valid line in
default format begins with the colour code, not with the date stamp.  And a
body whose only line fills the scanner buffer is not rendered at all, although
the line decodes, and the call returns nil. -/
theorem PrintComponent_historical_counterexample :
    ((PrintComponent sampleJSON
        (colorClient
          { StatusCode := 200, Body := { data := sampleLine ++ "\n", readErr := none } } [])
        "/agent-1" "" sampleOpts emptyState).2.out
      = "\x1b[0;31m2019-01-01 00:00:00 UTCdcos-mesos-slave [1234]: Started agent\x1b[0m\n"
     ∧ formatUTC (sampleEntry.RealtimeTimestamp.tdiv 1000000) = "2019-01-01 00:00:00 UTC"
     ∧ (formatUTC (sampleEntry.RealtimeTimestamp.tdiv 1000000)).data.isPrefixOf
         (PrintComponent sampleJSON
           (colorClient
             { StatusCode := 200, Body := { data := sampleLine ++ "\n", readErr := none } } [])
           "/agent-1" "" sampleOpts emptyState).2.out.data = false)
    ∧ (anyJSON.unmarshal longLine = .ok sampleEntry
       ∧ rendered anyJSON
           (plainClient
             { StatusCode := 200, Body := { data := longLine ++ "\n" ++ "", readErr := none } } [])
           sampleOpts longLine
         = "2019-01-01 00:00:00 UTCdcos-mesos-slave [1234]: Started agent\n"
       ∧ PrintComponent anyJSON
           (plainClient
             { StatusCode := 200, Body := { data := longLine ++ "\n" ++ "", readErr := none } } [])
           "/agent-1" "" sampleOpts emptyState
         = (Outcome.returned none, emptyState.record
             (Call.get "/system/v1/agent-1/logs/v2/component?skip=-10" "application/json"))) := by
  refine ⟨by decide, rfl, ?_, ?_⟩
  · have h := rendered_plain anyJSON
      (plainClient
        { StatusCode := 200, Body := { data := longLine ++ "\n" ++ "", readErr := none } } [])
      longLine sampleOpts sampleEntry rfl rfl
    rw [h]
    decide
  · rw [PrintComponent_ok_eq anyJSON _ "/agent-1" "" sampleOpts emptyState
      { StatusCode := 200, Body := { data := longLine ++ "\n" ++ "", readErr := none } }
      rfl rfl rfl]
    rw [scanLines_long longLine "" none longLine_spec.1 longLine_spec.2]
    have he : componentEndpoint "/agent-1" "" sampleOpts
        = "/system/v1/agent-1/logs/v2/component?skip=-10" := by decide
    rw [he]
    rfl

/-! ### Following -/

/-- What the follow loop of `FollowTask` does with a frame that carries data. -/
theorem followHandler_eq (js : JSON) (c : Client) (printLogs : Bool) (opts : Options)
    (m : String) (s : State) :
    (if printLogs then printEntry js c m opts s else dumpEntry js m s)
      = ((if printLogs then (printEntry js c m opts emptyState).1
          else (dumpEntry js m emptyState).1),
         s.write (if printLogs then rendered js c opts m else dumped js m)) := by
  cases printLogs
  · simp only [Bool.false_eq_true, if_false]
    exact dumpEntry_eq js m s
  · simp only [if_true]
    exact printEntry_eq js c m opts s

theorem FollowTask_withEvents (js : JSON) (c : Client) (events : List String) (closed : Bool)
    (taskID : String) (file : String) (printLogs : Bool) (opts : Options) (st : State) :
    FollowTask js (c.withEvents events closed) taskID file printLogs opts st
      = deferUnsubscribe (rangeEvents
          (fun data s => if printLogs then printEntry js c data opts s else dumpEntry js data s)
          closed events
          (st.record (Call.subscribe (c.http.baseURL ++ taskEndpoint taskID file opts)))) :=
  rfl

theorem PrintComponent_withEvents (js : JSON) (c : Client) (events : List String)
    (closed : Bool) (route : String) (service : String) (opts : Options) (st : State)
    (hf : opts.Follow = true) :
    PrintComponent js (c.withEvents events closed) route service opts st
      = deferUnsubscribe (rangeEvents (fun data s => printEntry js c data opts s) closed events
          (st.record (Call.subscribe
            (c.http.baseURL ++ componentEndpoint route service opts)))) := by
  unfold PrintComponent
  simp only [hf, if_true]
  rfl

theorem deferUnsubscribe_returned (err : Option Error) (st : State) :
    deferUnsubscribe (Outcome.returned err, st) = (Outcome.returned err, st.unsubscribe) := rfl

theorem deferUnsubscribe_out (r : Outcome × State) : (deferUnsubscribe r).2.out = r.2.out := by
  rcases r with ⟨o, st⟩
  cases o <;> rfl

theorem deferUnsubscribe_calls (r : Outcome × State) :
    (deferUnsubscribe r).2.calls = r.2.calls := by
  rcases r with ⟨o, st⟩
  cases o <;> rfl

/-- C8, as the code has it: for every finite sequence of frames delivered on
the events channel, closed after them or not, following (FollowTask with
either value of printLogs, and PrintComponent with Follow = true) ignores the
frames with empty payload: the outcome and the state afterwards equal those
for the same sequence with every empty frame removed.  In particular for a
stream of one heartbeat and one valid entry, following writes exactly the
rendering of that entry, and when the events channel is closed after these
frames it returns nil and unsubscribes once. -/
theorem follow_ignores_empty_frames (js : JSON) (c : Client) (taskID : String) (file : String)
    (printLogs : Bool) (route : String) (service : String) (opts : Options) (st : State)
    (frames : List String) (closed : Bool) :
    FollowTask js (c.withEvents frames closed) taskID file printLogs opts st
      = FollowTask js (c.withEvents (frames.filter hasData) closed) taskID file printLogs opts st
    ∧ PrintComponent js (c.withEvents frames closed) route service { opts with Follow := true } st
      = PrintComponent js (c.withEvents (frames.filter hasData) closed) route service
          { opts with Follow := true } st
    ∧ (∀ (raw : String) (entry : Entry), raw.length ≠ 0 → js.unmarshal raw = .ok entry →
        (FollowTask js (c.withEvents ["", raw] closed) taskID file true opts st).2.out
          = st.out ++ rendered js c opts raw
        ∧ FollowTask js (c.withEvents ["", raw] true) taskID file true opts st
          = (Outcome.returned none,
             { out := st.out ++ rendered js c opts raw,
               calls := st.calls
                 ++ [Call.subscribe (c.http.baseURL ++ taskEndpoint taskID file opts)],
               unsubscribed := st.unsubscribed + 1 })) := by
  refine ⟨?_, ?_, ?_⟩
  · rw [FollowTask_withEvents, FollowTask_withEvents, ← rangeEvents_filter]
  · rw [PrintComponent_withEvents _ _ _ _ _ _ _ _ rfl,
      PrintComponent_withEvents _ _ _ _ _ _ _ _ rfl, ← rangeEvents_filter]
  · intro raw entry hraw hdec
    have hnil := (printEntry_error_iff js c raw opts emptyState).1 entry hdec
    have h0 : ("" : String).length = 0 := rfl
    have hrun : ∀ cl s, rangeEvents
        (fun data s => if true = true then printEntry js c data opts s else dumpEntry js data s)
        cl ["", raw] s
        = (if cl then Outcome.returned none else Outcome.blocked,
           s.write (rendered js c opts raw)) := by
      intro cl s
      simp only [rangeEvents, h0, hraw, if_true, if_false]
      rw [printEntry_eq, hnil]
    refine ⟨?_, ?_⟩
    · rw [FollowTask_withEvents, deferUnsubscribe_out, hrun]
      rfl
    · rw [FollowTask_withEvents, hrun]
      rfl

set_option maxRecDepth 8000 in
/-- One heartbeat, the sample entry, then the channel is closed: one line,
nil, one unsubscription; and an empty frame between two entries changes
nothing, on a channel that is left open as well. -/
theorem follow_ignores_empty_frames_witness :
    FollowTask sampleJSON ((plainClient (emptyResponse 200) []).withEvents ["", sampleLine] true)
        "task-1" "stdout" true sampleOpts emptyState
      = (Outcome.returned none,
         { out := "2019-01-01 00:00:00 UTCdcos-mesos-slave [1234]: Started agent\n",
           calls := [Call.subscribe
             "https://cluster/system/v1/logs/v2/task/task-1/file/stdout?cursor=END&skip=-10"],
           unsubscribed := 1 })
    ∧ FollowTask sampleJSON
        ((plainClient (emptyResponse 200) []).withEvents [sampleLine, "", escLine] false)
        "task-1" "stdout" false sampleOpts emptyState
      = FollowTask sampleJSON
        ((plainClient (emptyResponse 200) []).withEvents [sampleLine, escLine] false)
        "task-1" "stdout" false sampleOpts emptyState := by
  have h := follow_ignores_empty_frames sampleJSON (plainClient (emptyResponse 200) []) "task-1"
    "stdout" true "/agent-1" "" sampleOpts emptyState ["", sampleLine] true
  have h2 := follow_ignores_empty_frames sampleJSON (plainClient (emptyResponse 200) []) "task-1"
    "stdout" false "/agent-1" "" sampleOpts emptyState [sampleLine, "", escLine] false
  refine ⟨?_, ?_⟩
  · rw [(h.2.2 sampleLine sampleEntry (by decide) (by decide)).2]
    decide
  · rw [h2.1]
    decide

set_option maxRecDepth 8000 in
/-- C8 fails as stated.  One heartbeat, the sample entry, and then nothing
more on an events channel that nobody closes (client.go never closes it): the
rendering is written, but the call does not return nil; it stays blocked in
the loop and the deferred unsubscription has not run. -/
theorem follow_ignores_empty_frames_counterexample :
    sampleJSON.unmarshal sampleLine = .ok sampleEntry
    ∧ FollowTask sampleJSON
        ((plainClient (emptyResponse 200) []).withEvents ["", sampleLine] false)
        "task-1" "stdout" true sampleOpts emptyState
      = (Outcome.blocked,
         { out := "2019-01-01 00:00:00 UTCdcos-mesos-slave [1234]: Started agent\n",
           calls := [Call.subscribe
             "https://cluster/system/v1/logs/v2/task/task-1/file/stdout?cursor=END&skip=-10"],
           unsubscribed := 0 })
    ∧ (PrintComponent sampleJSON
        ((plainClient (emptyResponse 200) []).withEvents ["", sampleLine] false)
        "/agent-1" "" { sampleOpts with Follow := true } emptyState).1 = Outcome.blocked
    ∧ (FollowTask sampleJSON
        ((plainClient (emptyResponse 200) []).withEvents ["", sampleLine] false)
        "task-1" "stdout" true sampleOpts emptyState).1 ≠ Outcome.returned none := by
  decide

/-- C9: for every event stream in follow mode in which a frame with data fails
to decode, the frames with data before it all decoding, following returns the
decode error, the sink holds exactly the output of the frames with data that
precede the malformed one, whatever comes after it and whether or not the
channel is closed in the end, and unsubscribe has been invoked exactly once;
this holds when entries are rendered (printLogs = true), when only the raw
message is written (printLogs = false), and for PrintComponent with
Follow = true. -/
theorem follow_decode_error (js : JSON) (c : Client) (taskID : String) (file : String)
    (printLogs : Bool) (route : String) (service : String) (opts : Options) (st : State)
    (pre post : List String) (bad msg : String) (closed : Bool)
    (hpre : ∀ m ∈ pre, m.length ≠ 0 → ∃ e, js.unmarshal m = .ok e)
    (hbad : bad.length ≠ 0) (hfail : js.unmarshal bad = .error msg) :
    FollowTask js (c.withEvents (pre ++ bad :: post) closed) taskID file printLogs opts st
      = (Outcome.returned (some (Error.decode msg)),
         { out := st.out ++ concatAll ((pre.filter hasData).map
             (fun m => if printLogs then rendered js c opts m else dumped js m)),
           calls := st.calls
             ++ [Call.subscribe (c.http.baseURL ++ taskEndpoint taskID file opts)],
           unsubscribed := st.unsubscribed + 1 })
    ∧ PrintComponent js (c.withEvents (pre ++ bad :: post) closed) route service
        { opts with Follow := true } st
      = (Outcome.returned (some (Error.decode msg)),
         { out := st.out ++ concatAll ((pre.filter hasData).map
             (rendered js c { opts with Follow := true })),
           calls := st.calls
             ++ [Call.subscribe (c.http.baseURL
                  ++ componentEndpoint route service { opts with Follow := true })],
           unsubscribed := st.unsubscribed + 1 }) := by
  have hbad1 : hasData bad = true := by simpa [hasData] using hbad
  refine ⟨?_, ?_⟩
  · rw [FollowTask_withEvents]
    have hE : (if printLogs then (printEntry js c bad opts emptyState).1
        else (dumpEntry js bad emptyState).1) = some (Error.decode msg) := by
      cases printLogs
      · simp only [Bool.false_eq_true, if_false]
        rw [(dumpEntry_error_iff js bad emptyState).2 msg hfail]
      · simp only [if_true]
        rw [(printEntry_error_iff js c bad opts emptyState).2 msg hfail]
    have hB : (if printLogs then rendered js c opts bad else dumped js bad) = "" := by
      cases printLogs
      · simp only [Bool.false_eq_true, if_false]
        exact dumped_error js bad msg hfail
      · simp only [if_true]
        exact rendered_error js c opts bad msg hfail
    have hrun := rangeEvents_fail
      (fun data s => if printLogs then printEntry js c data opts s else dumpEntry js data s)
      (fun m => if printLogs then (printEntry js c m opts emptyState).1
        else (dumpEntry js m emptyState).1)
      (fun m => if printLogs then rendered js c opts m else dumped js m)
      (fun m s => followHandler_eq js c printLogs opts m s) closed pre post bad
      (Error.decode msg)
      (fun m hm hd => by
        have hlen : m.length ≠ 0 := by simpa [hasData] using hd
        obtain ⟨e, he⟩ := hpre m hm hlen
        cases printLogs
        · simp only [Bool.false_eq_true, if_false]
          rw [(dumpEntry_error_iff js m emptyState).1 e he]
        · simp only [if_true]
          exact (printEntry_error_iff js c m opts emptyState).1 e he)
      hbad1 hE
    rw [hrun, deferUnsubscribe_returned]
    simp only [hB, write_empty]
    rfl
  · rw [PrintComponent_withEvents _ _ _ _ _ _ _ _ rfl]
    have hrun := rangeEvents_fail
      (fun data s => printEntry js c data { opts with Follow := true } s)
      (fun m => (printEntry js c m { opts with Follow := true } emptyState).1)
      (fun m => rendered js c { opts with Follow := true } m)
      (fun m s => printEntry_eq js c m _ s) closed pre post bad (Error.decode msg)
      (fun m hm hd => by
        have hlen : m.length ≠ 0 := by simpa [hasData] using hd
        obtain ⟨e, he⟩ := hpre m hm hlen
        exact (printEntry_error_iff js c m _ emptyState).1 e he)
      hbad1 (by
        show (printEntry js c bad _ emptyState).1 = some (Error.decode msg)
        rw [(printEntry_error_iff js c bad _ emptyState).2 msg hfail])
    rw [hrun, deferUnsubscribe_returned]
    simp only [rendered_error js c _ bad msg hfail, write_empty]
    rfl

set_option maxRecDepth 8000 in
/-- A heartbeat, the sample entry, a malformed frame, another entry, on a
channel left open: the decode error, the one rendering (or the one raw
message), one unsubscription. -/
theorem follow_decode_error_witness :
    FollowTask sampleJSON
        ((plainClient (emptyResponse 200) []).withEvents ["", sampleLine, "oops", escLine] false)
        "task-1" "stdout" true sampleOpts emptyState
      = (Outcome.returned (some (Error.decode "invalid character")),
         { out := "2019-01-01 00:00:00 UTCdcos-mesos-slave [1234]: Started agent\n",
           calls := [Call.subscribe
             "https://cluster/system/v1/logs/v2/task/task-1/file/stdout?cursor=END&skip=-10"],
           unsubscribed := 1 })
    ∧ FollowTask sampleJSON
        ((plainClient (emptyResponse 200) []).withEvents ["", sampleLine, "oops", escLine] true)
        "task-1" "stdout" false sampleOpts emptyState
      = (Outcome.returned (some (Error.decode "invalid character")),
         { out := "Started agent",
           calls := [Call.subscribe
             "https://cluster/system/v1/logs/v2/task/task-1/file/stdout?cursor=END&skip=-10"],
           unsubscribed := 1 }) := by
  have hpre : ∀ m ∈ ["", sampleLine], m.length ≠ 0 →
      ∃ e, sampleJSON.unmarshal m = .ok e := by
    intro m hm hlen
    rcases List.mem_cons.mp hm with rfl | hm
    · exact absurd rfl hlen
    · rcases List.mem_cons.mp hm with rfl | hm
      · exact ⟨sampleEntry, by decide⟩
      · exact absurd hm (List.not_mem_nil _)
  have h1 := (follow_decode_error sampleJSON (plainClient (emptyResponse 200) []) "task-1"
    "stdout" true "/agent-1" "" sampleOpts emptyState ["", sampleLine] [escLine] "oops"
    "invalid character" false hpre (by decide) (by decide)).1
  have h2 := (follow_decode_error sampleJSON (plainClient (emptyResponse 200) []) "task-1"
    "stdout" false "/agent-1" "" sampleOpts emptyState ["", sampleLine] [escLine] "oops"
    "invalid character" true hpre (by decide) (by decide)).1
  refine ⟨?_, ?_⟩
  · exact h1.trans (by decide)
  · exact h2.trans (by decide)

/-! ### Endpoints -/

theorem stringsJoin_filters (fs : List String) :
    ∀ f, "&filter=" ++ stringsJoin (f :: fs) "&filter="
      = concatAll ((f :: fs).map (fun x => "&filter=" ++ x)) := by
  induction fs with
  | nil => intro f; simp [stringsJoin, concatAll]
  | cons g gs ih =>
    intro f
    have h := ih g
    simp only [stringsJoin, List.map_cons, concatAll] at h ⊢
    rw [← h]
    simp only [String.append_assoc]

theorem componentEndpoint_eq (route : String) (service : String) (opts : Options) :
    componentEndpoint route service opts
      = "/system/v1" ++ route ++ "/logs/v2/component" ++ service ++ "?skip="
        ++ toString opts.Skip ++ concatAll (opts.Filters.map (fun f => "&filter=" ++ f)) := by
  unfold componentEndpoint
  cases hfs : opts.Filters with
  | nil => simp [concatAll]
  | cons f fs =>
    have hlen : (f :: fs).length > 0 := by simp
    simp only [hlen, if_true]
    rw [stringsJoin_filters]

theorem rangeEvents_calls (h : String → State → Option Error × State)
    (E : String → Option Error) (B : String → String)
    (hh : ∀ m s, h m s = (E m, s.write (B m))) (closed : Bool) (frames : List String) :
    ∀ st, (rangeEvents h closed frames st).2.calls = st.calls := by
  induction frames with
  | nil => intro st; rfl
  | cons m rest ih =>
    intro st
    by_cases hm : m.length = 0
    · simp only [rangeEvents, hm, if_true]
      exact ih st
    · simp only [rangeEvents, hm, if_false, hh]
      cases E m with
      | none => exact (ih _).trans rfl
      | some err => rfl

theorem printLines_calls (js : JSON) (c : Client) (opts : Options) (toks : List String) :
    ∀ st, (printLines js c opts toks st).2.calls = st.calls := by
  induction toks with
  | nil => intro st; rfl
  | cons l rest ih =>
    intro st
    simp only [printLines]
    rw [printEntry_eq]
    cases (printEntry js c l opts emptyState).1 with
    | none => exact (ih _).trans rfl
    | some err => rfl

theorem PrintComponent_calls (js : JSON) (c : Client) (route : String) (service : String)
    (opts : Options) (st : State) :
    (PrintComponent js c route service opts st).2.calls
      = st.calls ++ [if opts.Follow
          then Call.subscribe (c.http.baseURL ++ componentEndpoint route service opts)
          else Call.get (componentEndpoint route service opts) "application/json"] := by
  unfold PrintComponent
  cases hf : opts.Follow
  · simp only [Bool.false_eq_true, if_false]
    cases c.http.get (componentEndpoint route service opts) "application/json" with
    | error msg => rfl
    | ok resp =>
      simp only
      split_ifs
      · rfl
      · exact (printLines_calls js c opts _ _).trans rfl
  · simp only [if_true]
    cases c.http.subscribe (c.http.baseURL ++ componentEndpoint route service opts) with
    | error msg => rfl
    | ok events =>
      simp only
      rw [deferUnsubscribe_calls]
      exact (rangeEvents_calls _ _ _ (fun m s => printEntry_eq js c m opts s) _ _ _).trans rfl

theorem FollowTask_calls (js : JSON) (c : Client) (taskID : String) (file : String)
    (printLogs : Bool) (opts : Options) (st : State) :
    (FollowTask js c taskID file printLogs opts st).2.calls
      = st.calls ++ [Call.subscribe (c.http.baseURL ++ taskEndpoint taskID file opts)] := by
  unfold FollowTask
  simp only
  cases c.http.subscribe (c.http.baseURL ++ taskEndpoint taskID file opts) with
  | error msg => rfl
  | ok events =>
    simp only
    rw [deferUnsubscribe_calls]
    exact (rangeEvents_calls _ _ _ (fun m s => followHandler_eq js c printLogs opts m s)
      _ _ _).trans rfl

theorem PrintTask_calls (js : JSON) (c : Client) (taskID : String) (file : String)
    (opts : Options) (st : State) (hf : opts.Follow = false) :
    (PrintTask js c taskID file opts st).2.calls
      = st.calls ++ [Call.get (taskEndpoint taskID file opts) "text/plain"] := by
  unfold PrintTask
  simp only [hf, Bool.false_eq_true, if_false]
  cases c.http.get (taskEndpoint taskID file opts) "text/plain" with
  | error msg => rfl
  | ok resp =>
    simp only
    split_ifs
    · rfl
    · cases resp.Body.readErr <;> rfl

/-- C10: for every route, component suffix, skip value and filter list, the one
request PrintComponent makes is for "/system/v1" + route + "/logs/v2/component"
+ suffix + "?skip=" + decimal(skip) followed by "&filter=" + f for each filter
in list order (none for the empty list): a Get of that endpoint for the
historical request, a subscription to the base URL followed by the identical
endpoint for the follow request.  Likewise the one request of PrintTask
(historical) and of FollowTask is for
"/system/v1/logs/v2/task/<taskID>/file/<file>?cursor=END&skip=<skip>", and
PrintTask with Follow set is FollowTask. -/
theorem endpoints_spec (js : JSON) (c : Client) (route : String) (service : String)
    (taskID : String) (file : String) (printLogs : Bool) (opts : Options) (st : State) :
    (PrintComponent js c route service { opts with Follow := false } st).2.calls
      = st.calls ++ [Call.get
          ("/system/v1" ++ route ++ "/logs/v2/component" ++ service ++ "?skip="
            ++ toString opts.Skip ++ concatAll (opts.Filters.map (fun f => "&filter=" ++ f)))
          "application/json"]
    ∧ (PrintComponent js c route service { opts with Follow := true } st).2.calls
      = st.calls ++ [Call.subscribe (c.http.baseURL
          ++ ("/system/v1" ++ route ++ "/logs/v2/component" ++ service ++ "?skip="
            ++ toString opts.Skip ++ concatAll (opts.Filters.map (fun f => "&filter=" ++ f))))]
    ∧ (PrintTask js c taskID file { opts with Follow := false } st).2.calls
      = st.calls ++ [Call.get
          ("/system/v1/logs/v2/task/" ++ taskID ++ "/file/" ++ file ++ "?cursor=END&skip="
            ++ toString opts.Skip) "text/plain"]
    ∧ (FollowTask js c taskID file printLogs opts st).2.calls
      = st.calls ++ [Call.subscribe (c.http.baseURL
          ++ ("/system/v1/logs/v2/task/" ++ taskID ++ "/file/" ++ file ++ "?cursor=END&skip="
            ++ toString opts.Skip))]
    ∧ PrintTask js c taskID file { opts with Follow := true } st
      = FollowTask js c taskID file true { opts with Follow := true } st := by
  refine ⟨?_, ?_, ?_, ?_, ?_⟩
  · rw [PrintComponent_calls, componentEndpoint_eq]
    rfl
  · rw [PrintComponent_calls, componentEndpoint_eq]
    rfl
  · rw [PrintTask_calls _ _ _ _ _ _ rfl]
    rfl
  · rw [FollowTask_calls]
    rfl
  · rfl

set_option maxRecDepth 8000 in
/-- The requests for route "/agent-1" with two filters and skip -10, and for
the file "stdout" of a task. -/
theorem endpoints_examples :
    (PrintComponent sampleJSON (plainClient (emptyResponse 200) []) "/agent-1" "/dcos-mesos-slave"
        { sampleOpts with Filters := ["unit=a", "_PID=1"] } emptyState).2.calls
      = [Call.get
          "/system/v1/agent-1/logs/v2/component/dcos-mesos-slave?skip=-10&filter=unit=a&filter=_PID=1"
          "application/json"]
    ∧ (PrintComponent sampleJSON (plainClient (emptyResponse 200) []) "/agent-1" "/dcos-mesos-slave"
        { sampleOpts with Filters := ["unit=a", "_PID=1"], Follow := true } emptyState).2.calls
      = [Call.subscribe
          "https://cluster/system/v1/agent-1/logs/v2/component/dcos-mesos-slave?skip=-10&filter=unit=a&filter=_PID=1"]
    ∧ (PrintTask sampleJSON (plainClient (emptyResponse 200) []) "task-1" "stdout"
        { sampleOpts with Skip := 5 } emptyState).2.calls
      = [Call.get "/system/v1/logs/v2/task/task-1/file/stdout?cursor=END&skip=5" "text/plain"] := by
  decide

end Logs
